import Mathlib

/-!
Shallow embedding of the g4pbc periodic boundary process
(src/G4PeriodicBoundaryProcess.cc, include/G4PeriodicBoundaryProcess.hh)
and verification of the specification's claims about its
PostStepDoIt evaluator.

The C++ member function PostStepDoIt is embedded as a pure function from
the process configuration, the navigator answer, the optional hyper step,
the track and the step, to a result record holding the proposed particle
change, the diagnostic status (with a count of the status assignments made
after the initial reset), the list of G4Exception codes raised
(G4Exception with EventMustBeAborted prints, flags the event for abort and
returns, so execution continues after it), the computed global normal, and
the final state of the pre-step touchable (which the source mutates in
place through MoveUpHistory).
-/

namespace PBC

/-- Three-component real vector, modelling G4ThreeVector. -/
structure Vec3 where
  x : ℝ
  y : ℝ
  z : ℝ

/-- Component-wise negation, modelling operator- of G4ThreeVector. -/
def Vec3.neg (v : Vec3) : Vec3 := ⟨-v.x, -v.y, -v.z⟩

/-- Component-wise addition. -/
def Vec3.add (a b : Vec3) : Vec3 := ⟨a.x + b.x, a.y + b.y, a.z + b.z⟩

/-- Component-wise subtraction. -/
def Vec3.sub (a b : Vec3) : Vec3 := ⟨a.x - b.x, a.y - b.y, a.z - b.z⟩

/-- Scalar multiplication. -/
def Vec3.smul (c : ℝ) (v : Vec3) : Vec3 := ⟨c * v.x, c * v.y, c * v.z⟩

/-- Dot product, modelling operator* of G4ThreeVector. -/
def Vec3.dot (a b : Vec3) : ℝ := a.x * b.x + a.y * b.y + a.z * b.z

/-- Squared magnitude, modelling Hep3Vector::mag2. -/
def Vec3.mag2 (v : Vec3) : ℝ := v.dot v

/-- Hep3Vector::unit(): rescale to unit length; the zero vector is
returned unchanged. -/
noncomputable def Vec3.unit (v : Vec3) : Vec3 :=
  if 0 < v.mag2 then Vec3.smul (Real.sqrt v.mag2)⁻¹ v else v

/-- Hep3Vector::setX. -/
def Vec3.setX (v : Vec3) (a : ℝ) : Vec3 := ⟨a, v.y, v.z⟩

/-- Hep3Vector::setY. -/
def Vec3.setY (v : Vec3) (a : ℝ) : Vec3 := ⟨v.x, a, v.z⟩

/-- Hep3Vector::setZ. -/
def Vec3.setZ (v : Vec3) (a : ℝ) : Vec3 := ⟨v.x, v.y, a⟩

/-- A logical volume; the only fact PostStepDoIt reads about it is whether
a G4LogicalSkinSurface is registered for it
(G4LogicalSkinSurface::GetSurface returns non-null). -/
structure LogicalVolume where
  skinSurface : Bool
  deriving DecidableEq

/-- G4TouchableHistory: the chain of volumes from the leaf (innermost)
volume outward, the world volume last, plus the number of MoveUpHistory
calls already applied to the object. -/
structure Touchable where
  chain : List LogicalVolume
  offset : Nat
  deriving DecidableEq

/-- G4TouchableHistory::GetVolume()->GetLogicalVolume(): the volume at the
current level of the (possibly moved-up) history. -/
def Touchable.getVolume (t : Touchable) : LogicalVolume :=
  t.chain.getD t.offset ⟨false⟩

/-- G4TouchableHistory::MoveUpHistory(): move one level outward. -/
def Touchable.moveUpHistory (t : Touchable) : Touchable :=
  ⟨t.chain, t.offset + 1⟩

/-- G4TouchableHistory::GetHistoryDepth(): the world entry of the history
is at navigation depth 0 and the leaf at depth chain.length - 1, so the
depth of the current level is chain.length - 1 - offset. -/
def Touchable.getHistoryDepth (t : Touchable) : Nat :=
  t.chain.length - 1 - t.offset

/-- G4StepStatus as far as PostStepDoIt inspects it: equal to
fGeomBoundary or not. -/
inductive StepStatus where
  | fGeomBoundary
  | fOther
  deriving DecidableEq

/-- A step point: its global position, its step status, and its
touchable. -/
structure StepPoint where
  position : Vec3
  stepStatus : StepStatus
  touchable : Touchable

/-- A step: pre- and post-step points. -/
structure Step where
  pre : StepPoint
  post : StepPoint

/-- The track state PostStepDoIt reads: momentum direction and
polarization of the dynamic particle, and the step length. -/
structure Track where
  momentumDirection : Vec3
  polarization : Vec3
  stepLength : ℝ

/-- The answer of iNav[hNavId]->GetGlobalExitNormal(point, &valid):
the returned normal and the validity flag. -/
structure Navigator where
  exitNormal : Vec3
  valid : Bool

/-- The construction-time configuration of G4PeriodicBoundaryProcess. -/
structure PBConfig where
  periodic_x : Bool
  periodic_y : Bool
  periodic_z : Bool
  reflecting_walls : Bool
  kCarTolerance : ℝ

/-- The proposals accumulated in G4ParticleChangeForPeriodic: none means
the corresponding Propose… setter was not called during this call. -/
structure ParticleChange where
  momentumDirection : Option Vec3
  polarization : Option Vec3
  position : Option Vec3

/-- fParticleChange.InitializeForPostStep(aTrack): no proposals. -/
def initializeForPostStep : ParticleChange := ⟨none, none, none⟩

/-- The status enum of the process (header file). -/
inductive G4PeriodicBoundaryProcessStatus where
  | Undefined
  | Reflection
  | Cycling
  | StepTooSmall
  | NotAtBoundary
  deriving DecidableEq

/-- The G4Exception codes PostStepDoIt can raise (both with
EventMustBeAborted severity): PerBoun01 for an invalid navigator normal,
Periodic01 for a periodic surface whose normal is on no axis-aligned
plane. -/
inductive G4ExceptionCode where
  | PerBoun01
  | Periodic01
  deriving DecidableEq

/-- Result of one PostStepDoIt call: the particle change returned, the
final theStatus value together with the number of assignments to
theStatus made after the initial reset to Undefined, the G4Exception
codes raised during the call, the value of theGlobalNormal once computed
(none on the early returns that never reach the normal computation), and
the final state of the pre-step touchable, which the source mutates in
place via MoveUpHistory during the skin-surface search. -/
structure PostStepDoItResult where
  change : ParticleChange
  status : G4PeriodicBoundaryProcessStatus
  statusWrites : Nat
  errors : List G4ExceptionCode
  globalNormal : Option Vec3
  finalTouchable : Touchable

/-- Lines 103-128 of the source: theGlobalNormal is the navigator's
returned exit normal, negated once when the navigator reports it valid,
and negated again when it then points into the same half-space as the
old momentum (dot product strictly positive). -/
noncomputable def theGlobalNormalOf (valid : Bool) (exitNormal OldMomentum : Vec3) : Vec3 :=
  let n1 := if valid then exitNormal.neg else exitNormal
  if OldMomentum.dot n1 > 0 then n1.neg else n1

/-- Lines 140-152 of the source: for i < depth, look the current volume
up in the skin-surface registry, break when a surface is found, else
MoveUpHistory.  Returns whether a surface was found and the touchable as
left by the loop. -/
def findSurface : Touchable → Nat → Bool × Touchable
  | t, 0 => (false, t)
  | t, d + 1 =>
    if (t.getVolume).skinSurface then (true, t)
    else findSurface t.moveUpHistory d

/-- The number of MoveUpHistory calls the surface search performs:
the number of untagged levels visited before the first tagged one
(all of them when none is tagged within the fuel). -/
def searchSteps : Touchable → Nat → Nat
  | _, 0 => 0
  | t, d + 1 =>
    if (t.getVolume).skinSurface then 0
    else searchSteps t.moveUpHistory d + 1

/-- Shallow embedding of G4PeriodicBoundaryProcess::PostStepDoIt
(src/G4PeriodicBoundaryProcess.cc lines 33-241).  Verbose printing is
dropped; G4Exception calls are recorded in the errors list (they return,
so execution continues); the trajectory append and the navigator
relocation in wrap mode touch only external collaborators and are not
part of the result. -/
noncomputable def PostStepDoIt (cfg : PBConfig) (nav : Navigator)
    (hyperStep : Option Step) (aTrack : Track) (aStep : Step) : PostStepDoItResult :=
  let pStep : Step := hyperStep.getD aStep
  if pStep.post.stepStatus ≠ StepStatus.fGeomBoundary then
    { change := initializeForPostStep, status := .NotAtBoundary, statusWrites := 1,
      errors := [], globalNormal := none, finalTouchable := pStep.pre.touchable }
  else if aTrack.stepLength ≤ cfg.kCarTolerance / 2 then
    { change := initializeForPostStep, status := .StepTooSmall, statusWrites := 1,
      errors := [], globalNormal := none, finalTouchable := pStep.pre.touchable }
  else
    let OldMomentum := aTrack.momentumDirection
    let OldPolarization := aTrack.polarization
    let OldPosition := pStep.post.position
    let errs : List G4ExceptionCode := if nav.valid then [] else [.PerBoun01]
    let theGlobalNormal := theGlobalNormalOf nav.valid nav.exitNormal OldMomentum
    let fs := findSurface pStep.pre.touchable pStep.pre.touchable.getHistoryDepth
    if fs.1 then
      if (|theGlobalNormal.x| = 1) ∨ (|theGlobalNormal.y| = 1) ∨ (|theGlobalNormal.z| = 1) then
        if ((|theGlobalNormal.x| = 1) ∧ cfg.periodic_x = true) ∨
            ((|theGlobalNormal.y| = 1) ∧ cfg.periodic_y = true) ∨
            ((|theGlobalNormal.z| = 1) ∧ cfg.periodic_z = true) then
          if cfg.reflecting_walls then
            let PdotN := OldMomentum.dot theGlobalNormal
            let NewMomentum := (OldMomentum.sub (Vec3.smul (2 * PdotN) theGlobalNormal)).unit
            let EdotN := OldPolarization.dot theGlobalNormal
            let NewPolarization :=
              ((OldPolarization.neg).add (Vec3.smul (2 * EdotN) theGlobalNormal)).unit
            { change := { initializeForPostStep with
                momentumDirection := some NewMomentum,
                polarization := some NewPolarization },
              status := .Reflection, statusWrites := 1, errors := errs,
              globalNormal := some theGlobalNormal, finalTouchable := fs.2 }
          else
            let NewPosition :=
              if (|theGlobalNormal.x| = 1) ∧ cfg.periodic_x = true then
                OldPosition.setX (-OldPosition.x)
              else if (|theGlobalNormal.y| = 1) ∧ cfg.periodic_y = true then
                OldPosition.setY (-OldPosition.y)
              else if (|theGlobalNormal.z| = 1) ∧ cfg.periodic_z = true then
                OldPosition.setZ (-OldPosition.z)
              else OldPosition
            { change := { initializeForPostStep with position := some NewPosition },
              status := .Cycling, statusWrites := 1, errors := errs,
              globalNormal := some theGlobalNormal, finalTouchable := fs.2 }
        else
          { change := initializeForPostStep, status := .Undefined, statusWrites := 0,
            errors := errs, globalNormal := some theGlobalNormal, finalTouchable := fs.2 }
      else
        { change := initializeForPostStep, status := .Undefined, statusWrites := 0,
          errors := errs ++ [.Periodic01], globalNormal := some theGlobalNormal,
          finalTouchable := fs.2 }
    else
      { change := initializeForPostStep, status := .Undefined, statusWrites := 0,
        errors := errs, globalNormal := some theGlobalNormal, finalTouchable := fs.2 }

/-!
Branch characterization lemmas: one equation per control-flow path of
PostStepDoIt, used by the claim theorems below.
-/

theorem pbc_notAtBoundary (cfg : PBConfig) (nav : Navigator) (hyperStep : Option Step)
    (aTrack : Track) (aStep : Step)
    (hb : (hyperStep.getD aStep).post.stepStatus ≠ StepStatus.fGeomBoundary) :
    PostStepDoIt cfg nav hyperStep aTrack aStep =
      { change := initializeForPostStep, status := .NotAtBoundary, statusWrites := 1,
        errors := [], globalNormal := none,
        finalTouchable := (hyperStep.getD aStep).pre.touchable } := by
  simp only [PostStepDoIt]
  rw [if_pos hb]

theorem pbc_stepTooSmall (cfg : PBConfig) (nav : Navigator) (hyperStep : Option Step)
    (aTrack : Track) (aStep : Step)
    (hb : (hyperStep.getD aStep).post.stepStatus = StepStatus.fGeomBoundary)
    (hl : aTrack.stepLength ≤ cfg.kCarTolerance / 2) :
    PostStepDoIt cfg nav hyperStep aTrack aStep =
      { change := initializeForPostStep, status := .StepTooSmall, statusWrites := 1,
        errors := [], globalNormal := none,
        finalTouchable := (hyperStep.getD aStep).pre.touchable } := by
  simp only [PostStepDoIt]
  rw [if_neg (by simp [hb]), if_pos hl]

theorem pbc_noSurface (cfg : PBConfig) (nav : Navigator) (hyperStep : Option Step)
    (aTrack : Track) (aStep : Step)
    (hb : (hyperStep.getD aStep).post.stepStatus = StepStatus.fGeomBoundary)
    (hl : ¬ aTrack.stepLength ≤ cfg.kCarTolerance / 2)
    (hf : (findSurface (hyperStep.getD aStep).pre.touchable
            (hyperStep.getD aStep).pre.touchable.getHistoryDepth).1 = false) :
    PostStepDoIt cfg nav hyperStep aTrack aStep =
      { change := initializeForPostStep, status := .Undefined, statusWrites := 0,
        errors := if nav.valid then [] else [.PerBoun01],
        globalNormal :=
          some (theGlobalNormalOf nav.valid nav.exitNormal aTrack.momentumDirection),
        finalTouchable := (findSurface (hyperStep.getD aStep).pre.touchable
            (hyperStep.getD aStep).pre.touchable.getHistoryDepth).2 } := by
  simp only [PostStepDoIt]
  rw [if_neg (by simp [hb]), if_neg hl, if_neg (by simp [hf])]

theorem pbc_notOnPlane (cfg : PBConfig) (nav : Navigator) (hyperStep : Option Step)
    (aTrack : Track) (aStep : Step)
    (hb : (hyperStep.getD aStep).post.stepStatus = StepStatus.fGeomBoundary)
    (hl : ¬ aTrack.stepLength ≤ cfg.kCarTolerance / 2)
    (hf : (findSurface (hyperStep.getD aStep).pre.touchable
            (hyperStep.getD aStep).pre.touchable.getHistoryDepth).1 = true)
    (hnp : ¬ ((|(theGlobalNormalOf nav.valid nav.exitNormal aTrack.momentumDirection).x| = 1) ∨
        (|(theGlobalNormalOf nav.valid nav.exitNormal aTrack.momentumDirection).y| = 1) ∨
        (|(theGlobalNormalOf nav.valid nav.exitNormal aTrack.momentumDirection).z| = 1))) :
    PostStepDoIt cfg nav hyperStep aTrack aStep =
      { change := initializeForPostStep, status := .Undefined, statusWrites := 0,
        errors := (if nav.valid then [] else [.PerBoun01]) ++ [.Periodic01],
        globalNormal :=
          some (theGlobalNormalOf nav.valid nav.exitNormal aTrack.momentumDirection),
        finalTouchable := (findSurface (hyperStep.getD aStep).pre.touchable
            (hyperStep.getD aStep).pre.touchable.getHistoryDepth).2 } := by
  simp only [PostStepDoIt]
  rw [if_neg (by simp [hb]), if_neg hl, if_pos hf, if_neg hnp]

theorem pbc_notPeriodicAxis (cfg : PBConfig) (nav : Navigator) (hyperStep : Option Step)
    (aTrack : Track) (aStep : Step)
    (hb : (hyperStep.getD aStep).post.stepStatus = StepStatus.fGeomBoundary)
    (hl : ¬ aTrack.stepLength ≤ cfg.kCarTolerance / 2)
    (hf : (findSurface (hyperStep.getD aStep).pre.touchable
            (hyperStep.getD aStep).pre.touchable.getHistoryDepth).1 = true)
    (hp : (|(theGlobalNormalOf nav.valid nav.exitNormal aTrack.momentumDirection).x| = 1) ∨
        (|(theGlobalNormalOf nav.valid nav.exitNormal aTrack.momentumDirection).y| = 1) ∨
        (|(theGlobalNormalOf nav.valid nav.exitNormal aTrack.momentumDirection).z| = 1))
    (hnper : ¬ (((|(theGlobalNormalOf nav.valid nav.exitNormal aTrack.momentumDirection).x| = 1) ∧
          cfg.periodic_x = true) ∨
        ((|(theGlobalNormalOf nav.valid nav.exitNormal aTrack.momentumDirection).y| = 1) ∧
          cfg.periodic_y = true) ∨
        ((|(theGlobalNormalOf nav.valid nav.exitNormal aTrack.momentumDirection).z| = 1) ∧
          cfg.periodic_z = true))) :
    PostStepDoIt cfg nav hyperStep aTrack aStep =
      { change := initializeForPostStep, status := .Undefined, statusWrites := 0,
        errors := if nav.valid then [] else [.PerBoun01],
        globalNormal :=
          some (theGlobalNormalOf nav.valid nav.exitNormal aTrack.momentumDirection),
        finalTouchable := (findSurface (hyperStep.getD aStep).pre.touchable
            (hyperStep.getD aStep).pre.touchable.getHistoryDepth).2 } := by
  simp only [PostStepDoIt]
  rw [if_neg (by simp [hb]), if_neg hl, if_pos hf, if_pos hp, if_neg hnper]

theorem pbc_reflect (cfg : PBConfig) (nav : Navigator) (hyperStep : Option Step)
    (aTrack : Track) (aStep : Step)
    (hb : (hyperStep.getD aStep).post.stepStatus = StepStatus.fGeomBoundary)
    (hl : ¬ aTrack.stepLength ≤ cfg.kCarTolerance / 2)
    (hf : (findSurface (hyperStep.getD aStep).pre.touchable
            (hyperStep.getD aStep).pre.touchable.getHistoryDepth).1 = true)
    (hper : ((|(theGlobalNormalOf nav.valid nav.exitNormal aTrack.momentumDirection).x| = 1) ∧
          cfg.periodic_x = true) ∨
        ((|(theGlobalNormalOf nav.valid nav.exitNormal aTrack.momentumDirection).y| = 1) ∧
          cfg.periodic_y = true) ∨
        ((|(theGlobalNormalOf nav.valid nav.exitNormal aTrack.momentumDirection).z| = 1) ∧
          cfg.periodic_z = true))
    (hrw : cfg.reflecting_walls = true) :
    PostStepDoIt cfg nav hyperStep aTrack aStep =
      { change := { initializeForPostStep with
          momentumDirection := some ((aTrack.momentumDirection.sub
            (Vec3.smul (2 * aTrack.momentumDirection.dot
                (theGlobalNormalOf nav.valid nav.exitNormal aTrack.momentumDirection))
              (theGlobalNormalOf nav.valid nav.exitNormal aTrack.momentumDirection))).unit),
          polarization := some (((aTrack.polarization.neg).add
            (Vec3.smul (2 * aTrack.polarization.dot
                (theGlobalNormalOf nav.valid nav.exitNormal aTrack.momentumDirection))
              (theGlobalNormalOf nav.valid nav.exitNormal aTrack.momentumDirection))).unit) },
        status := .Reflection, statusWrites := 1,
        errors := if nav.valid then [] else [.PerBoun01],
        globalNormal :=
          some (theGlobalNormalOf nav.valid nav.exitNormal aTrack.momentumDirection),
        finalTouchable := (findSurface (hyperStep.getD aStep).pre.touchable
            (hyperStep.getD aStep).pre.touchable.getHistoryDepth).2 } := by
  have hp : (|(theGlobalNormalOf nav.valid nav.exitNormal aTrack.momentumDirection).x| = 1) ∨
      (|(theGlobalNormalOf nav.valid nav.exitNormal aTrack.momentumDirection).y| = 1) ∨
      (|(theGlobalNormalOf nav.valid nav.exitNormal aTrack.momentumDirection).z| = 1) := by
    rcases hper with ⟨h, _⟩ | ⟨h, _⟩ | ⟨h, _⟩
    · exact Or.inl h
    · exact Or.inr (Or.inl h)
    · exact Or.inr (Or.inr h)
  simp only [PostStepDoIt]
  rw [if_neg (by simp [hb]), if_neg hl, if_pos hf, if_pos hp, if_pos hper,
    if_pos (by simp [hrw])]

theorem pbc_wrap_x (cfg : PBConfig) (nav : Navigator) (hyperStep : Option Step)
    (aTrack : Track) (aStep : Step)
    (hb : (hyperStep.getD aStep).post.stepStatus = StepStatus.fGeomBoundary)
    (hl : ¬ aTrack.stepLength ≤ cfg.kCarTolerance / 2)
    (hf : (findSurface (hyperStep.getD aStep).pre.touchable
            (hyperStep.getD aStep).pre.touchable.getHistoryDepth).1 = true)
    (hx : |(theGlobalNormalOf nav.valid nav.exitNormal aTrack.momentumDirection).x| = 1)
    (hpx : cfg.periodic_x = true)
    (hrw : cfg.reflecting_walls = false) :
    PostStepDoIt cfg nav hyperStep aTrack aStep =
      { change := { initializeForPostStep with
          position := some ((hyperStep.getD aStep).post.position.setX
            (-(hyperStep.getD aStep).post.position.x)) },
        status := .Cycling, statusWrites := 1,
        errors := if nav.valid then [] else [.PerBoun01],
        globalNormal :=
          some (theGlobalNormalOf nav.valid nav.exitNormal aTrack.momentumDirection),
        finalTouchable := (findSurface (hyperStep.getD aStep).pre.touchable
            (hyperStep.getD aStep).pre.touchable.getHistoryDepth).2 } := by
  simp only [PostStepDoIt]
  rw [if_neg (by simp [hb]), if_neg hl, if_pos hf, if_pos (Or.inl hx),
    if_pos (Or.inl ⟨hx, hpx⟩), if_neg (by simp [hrw]), if_pos ⟨hx, hpx⟩]

theorem pbc_wrap_y (cfg : PBConfig) (nav : Navigator) (hyperStep : Option Step)
    (aTrack : Track) (aStep : Step)
    (hb : (hyperStep.getD aStep).post.stepStatus = StepStatus.fGeomBoundary)
    (hl : ¬ aTrack.stepLength ≤ cfg.kCarTolerance / 2)
    (hf : (findSurface (hyperStep.getD aStep).pre.touchable
            (hyperStep.getD aStep).pre.touchable.getHistoryDepth).1 = true)
    (hnx : ¬ ((|(theGlobalNormalOf nav.valid nav.exitNormal aTrack.momentumDirection).x| = 1) ∧
        cfg.periodic_x = true))
    (hy : |(theGlobalNormalOf nav.valid nav.exitNormal aTrack.momentumDirection).y| = 1)
    (hpy : cfg.periodic_y = true)
    (hrw : cfg.reflecting_walls = false) :
    PostStepDoIt cfg nav hyperStep aTrack aStep =
      { change := { initializeForPostStep with
          position := some ((hyperStep.getD aStep).post.position.setY
            (-(hyperStep.getD aStep).post.position.y)) },
        status := .Cycling, statusWrites := 1,
        errors := if nav.valid then [] else [.PerBoun01],
        globalNormal :=
          some (theGlobalNormalOf nav.valid nav.exitNormal aTrack.momentumDirection),
        finalTouchable := (findSurface (hyperStep.getD aStep).pre.touchable
            (hyperStep.getD aStep).pre.touchable.getHistoryDepth).2 } := by
  simp only [PostStepDoIt]
  rw [if_neg (by simp [hb]), if_neg hl, if_pos hf, if_pos (Or.inr (Or.inl hy)),
    if_pos (Or.inr (Or.inl ⟨hy, hpy⟩)), if_neg (by simp [hrw]), if_neg hnx,
    if_pos ⟨hy, hpy⟩]

theorem pbc_wrap_z (cfg : PBConfig) (nav : Navigator) (hyperStep : Option Step)
    (aTrack : Track) (aStep : Step)
    (hb : (hyperStep.getD aStep).post.stepStatus = StepStatus.fGeomBoundary)
    (hl : ¬ aTrack.stepLength ≤ cfg.kCarTolerance / 2)
    (hf : (findSurface (hyperStep.getD aStep).pre.touchable
            (hyperStep.getD aStep).pre.touchable.getHistoryDepth).1 = true)
    (hnx : ¬ ((|(theGlobalNormalOf nav.valid nav.exitNormal aTrack.momentumDirection).x| = 1) ∧
        cfg.periodic_x = true))
    (hny : ¬ ((|(theGlobalNormalOf nav.valid nav.exitNormal aTrack.momentumDirection).y| = 1) ∧
        cfg.periodic_y = true))
    (hz : |(theGlobalNormalOf nav.valid nav.exitNormal aTrack.momentumDirection).z| = 1)
    (hpz : cfg.periodic_z = true)
    (hrw : cfg.reflecting_walls = false) :
    PostStepDoIt cfg nav hyperStep aTrack aStep =
      { change := { initializeForPostStep with
          position := some ((hyperStep.getD aStep).post.position.setZ
            (-(hyperStep.getD aStep).post.position.z)) },
        status := .Cycling, statusWrites := 1,
        errors := if nav.valid then [] else [.PerBoun01],
        globalNormal :=
          some (theGlobalNormalOf nav.valid nav.exitNormal aTrack.momentumDirection),
        finalTouchable := (findSurface (hyperStep.getD aStep).pre.touchable
            (hyperStep.getD aStep).pre.touchable.getHistoryDepth).2 } := by
  simp only [PostStepDoIt]
  rw [if_neg (by simp [hb]), if_neg hl, if_pos hf, if_pos (Or.inr (Or.inr hz)),
    if_pos (Or.inr (Or.inr ⟨hz, hpz⟩)), if_neg (by simp [hrw]), if_neg hnx, if_neg hny,
    if_pos ⟨hz, hpz⟩]

/-!
Lemmas about the surface search loop.
-/

theorem findSurface_chain (t : Touchable) (d : Nat) :
    (findSurface t d).2.chain = t.chain := by
  induction d generalizing t with
  | zero => rfl
  | succ n ih =>
    simp only [findSurface]
    by_cases h : (t.getVolume).skinSurface
    · rw [if_pos h]
    · rw [if_neg h]
      exact ih t.moveUpHistory

theorem findSurface_offset (t : Touchable) (d : Nat) :
    (findSurface t d).2.offset = t.offset + searchSteps t d := by
  induction d generalizing t with
  | zero => simp [findSurface, searchSteps]
  | succ n ih =>
    simp only [findSurface, searchSteps]
    by_cases h : (t.getVolume).skinSurface
    · rw [if_pos h, if_pos h]
      simp
    · rw [if_neg h, if_neg h]
      rw [ih t.moveUpHistory]
      simp only [Touchable.moveUpHistory]
      omega

theorem findSurface_found_iff (t : Touchable) (d : Nat) :
    (findSurface t d).1 = true ↔
      ∃ i, i < d ∧ (t.chain.getD (t.offset + i) ⟨false⟩).skinSurface = true := by
  induction d generalizing t with
  | zero => simp [findSurface]
  | succ n ih =>
    simp only [findSurface]
    by_cases h : (t.getVolume).skinSurface
    · rw [if_pos h]
      exact iff_of_true rfl
        ⟨0, Nat.succ_pos n, by simpa [Touchable.getVolume] using h⟩
    · rw [if_neg h]
      rw [ih t.moveUpHistory]
      simp only [Touchable.moveUpHistory]
      constructor
      · rintro ⟨i, hi, hp⟩
        refine ⟨i + 1, by omega, ?_⟩
        have : t.offset + (i + 1) = t.offset + 1 + i := by omega
        rw [this]
        exact hp
      · rintro ⟨i, hi, hp⟩
        cases i with
        | zero =>
          exfalso
          apply h
          simpa [Touchable.getVolume] using hp
        | succ k =>
          refine ⟨k, by omega, ?_⟩
          have : t.offset + 1 + k = t.offset + (k + 1) := by omega
          rw [this]
          exact hp

theorem searchSteps_spec (t : Touchable) (d : Nat)
    (h : (findSurface t d).1 = true) :
    (t.chain.getD (t.offset + searchSteps t d) ⟨false⟩).skinSurface = true ∧
      ∀ j, j < searchSteps t d →
        (t.chain.getD (t.offset + j) ⟨false⟩).skinSurface = false := by
  induction d generalizing t with
  | zero => simp [findSurface] at h
  | succ n ih =>
    simp only [findSurface] at h
    simp only [searchSteps]
    by_cases hv : (t.getVolume).skinSurface
    · rw [if_pos hv]
      constructor
      · simpa [Touchable.getVolume] using hv
      · intro j hj
        omega
    · rw [if_neg hv]
      rw [if_neg hv] at h
      obtain ⟨h1, h2⟩ := ih t.moveUpHistory h
      constructor
      · have harith : t.offset + (searchSteps t.moveUpHistory n + 1) =
            t.moveUpHistory.offset + searchSteps t.moveUpHistory n := by
          simp only [Touchable.moveUpHistory]
          omega
        rw [harith]
        have hc : t.chain = t.moveUpHistory.chain := rfl
        rw [hc]
        exact h1
      · intro j hj
        cases j with
        | zero =>
          simpa [Touchable.getVolume] using Bool.not_eq_true _ |>.mp hv
        | succ k =>
          have harith : t.offset + (k + 1) = t.moveUpHistory.offset + k := by
            simp only [Touchable.moveUpHistory]
            omega
          rw [harith]
          have hc : t.chain = t.moveUpHistory.chain := rfl
          rw [hc]
          exact h2 k (by omega)

/-!
Lemmas about the normal computation.
-/

theorem Vec3.dot_neg_right (a b : Vec3) : a.dot b.neg = -(a.dot b) := by
  simp only [Vec3.dot, Vec3.neg]
  ring

theorem Vec3.mag2_neg (v : Vec3) : v.neg.mag2 = v.mag2 := by
  simp only [Vec3.mag2, Vec3.dot, Vec3.neg]
  ring

theorem orient_mag2 (valid : Bool) (e m : Vec3) :
    (theGlobalNormalOf valid e m).mag2 = e.mag2 := by
  simp only [theGlobalNormalOf]
  cases valid <;> split_ifs <;>
    simp_all [Vec3.mag2_neg]

theorem orient_eq_neg_iff (e m : Vec3) :
    theGlobalNormalOf true e m = e.neg ↔ 0 ≤ m.dot e := by
  simp only [theGlobalNormalOf, if_true]
  by_cases h : m.dot e.neg > 0
  · rw [if_pos h]
    rw [Vec3.dot_neg_right] at h
    have hlt : m.dot e < 0 := by linarith
    constructor
    · intro he
      exfalso
      have hcomp : e.x = -e.x ∧ e.y = -e.y ∧ e.z = -e.z := by
        have h1 := congrArg Vec3.x he
        have h2 := congrArg Vec3.y he
        have h3 := congrArg Vec3.z he
        simp only [Vec3.neg] at h1 h2 h3
        constructor
        · linarith
        constructor
        · linarith
        · linarith
      have hx0 : e.x = 0 := by linarith [hcomp.1]
      have hy0 : e.y = 0 := by linarith [hcomp.2.1]
      have hz0 : e.z = 0 := by linarith [hcomp.2.2]
      have : m.dot e = 0 := by simp [Vec3.dot, hx0, hy0, hz0]
      linarith
    · intro h0
      linarith
  · rw [if_neg h]
    rw [Vec3.dot_neg_right] at h
    exact iff_of_true rfl (by linarith [not_lt.mp h])

theorem orient_opposes (e m : Vec3) : m.dot (theGlobalNormalOf true e m) ≤ 0 := by
  simp only [theGlobalNormalOf, if_true]
  by_cases h : m.dot e.neg > 0
  · rw [if_pos h, Vec3.dot_neg_right]
    linarith
  · rw [if_neg h]
    exact not_lt.mp h

theorem Vec3.unit_of_mag2_one (v : Vec3) (h : v.mag2 = 1) : v.unit = v := by
  simp [Vec3.unit, h, Real.sqrt_one, Vec3.smul]

/-- A vector of unit squared magnitude with one component of unit absolute
value has the other two components equal to zero, so it is axis-aligned on
exactly one axis.  This is the geometric fact behind the on_plane test. -/
theorem aligned_unique (n : Vec3) (h : n.mag2 = 1) :
    ((|n.x| = 1) ∨ (|n.y| = 1) ∨ (|n.z| = 1)) ↔
      ((|n.x| = 1 ∧ ¬(|n.y| = 1) ∧ ¬(|n.z| = 1)) ∨
       (¬(|n.x| = 1) ∧ |n.y| = 1 ∧ ¬(|n.z| = 1)) ∨
       (¬(|n.x| = 1) ∧ ¬(|n.y| = 1) ∧ |n.z| = 1)) := by
  have hm : n.x ^ 2 + n.y ^ 2 + n.z ^ 2 = 1 := by
    have := h
    simp only [Vec3.mag2, Vec3.dot] at this
    nlinarith [this]
  constructor
  · rintro (hx | hy | hz)
    · have hx2 : n.x ^ 2 = 1 := by rw [← sq_abs, hx]; norm_num
      have hy2 : n.y ^ 2 = 0 := by nlinarith [sq_nonneg n.y, sq_nonneg n.z]
      have hz2 : n.z ^ 2 = 0 := by nlinarith [sq_nonneg n.y, sq_nonneg n.z]
      have hy0 : n.y = 0 := by nlinarith [sq_nonneg n.y]
      have hz0 : n.z = 0 := by nlinarith [sq_nonneg n.z]
      exact Or.inl ⟨hx, by simp [hy0], by simp [hz0]⟩
    · have hy2 : n.y ^ 2 = 1 := by rw [← sq_abs, hy]; norm_num
      have hx2 : n.x ^ 2 = 0 := by nlinarith [sq_nonneg n.x, sq_nonneg n.z]
      have hz2 : n.z ^ 2 = 0 := by nlinarith [sq_nonneg n.x, sq_nonneg n.z]
      have hx0 : n.x = 0 := by nlinarith [sq_nonneg n.x]
      have hz0 : n.z = 0 := by nlinarith [sq_nonneg n.z]
      exact Or.inr (Or.inl ⟨by simp [hx0], hy, by simp [hz0]⟩)
    · have hz2 : n.z ^ 2 = 1 := by rw [← sq_abs, hz]; norm_num
      have hx2 : n.x ^ 2 = 0 := by nlinarith [sq_nonneg n.x, sq_nonneg n.y]
      have hy2 : n.y ^ 2 = 0 := by nlinarith [sq_nonneg n.x, sq_nonneg n.y]
      have hx0 : n.x = 0 := by nlinarith [sq_nonneg n.x]
      have hy0 : n.y = 0 := by nlinarith [sq_nonneg n.y]
      exact Or.inr (Or.inr ⟨by simp [hx0], by simp [hy0], hz⟩)
  · rintro (⟨h1, _, _⟩ | ⟨_, h2, _⟩ | ⟨_, _, h3⟩)
    · exact Or.inl h1
    · exact Or.inr (Or.inl h2)
    · exact Or.inr (Or.inr h3)

theorem pbc_wrap (cfg : PBConfig) (nav : Navigator) (hyperStep : Option Step)
    (aTrack : Track) (aStep : Step)
    (hb : (hyperStep.getD aStep).post.stepStatus = StepStatus.fGeomBoundary)
    (hl : ¬ aTrack.stepLength ≤ cfg.kCarTolerance / 2)
    (hf : (findSurface (hyperStep.getD aStep).pre.touchable
            (hyperStep.getD aStep).pre.touchable.getHistoryDepth).1 = true)
    (hper : ((|(theGlobalNormalOf nav.valid nav.exitNormal aTrack.momentumDirection).x| = 1) ∧
          cfg.periodic_x = true) ∨
        ((|(theGlobalNormalOf nav.valid nav.exitNormal aTrack.momentumDirection).y| = 1) ∧
          cfg.periodic_y = true) ∨
        ((|(theGlobalNormalOf nav.valid nav.exitNormal aTrack.momentumDirection).z| = 1) ∧
          cfg.periodic_z = true))
    (hrw : cfg.reflecting_walls = false) :
    PostStepDoIt cfg nav hyperStep aTrack aStep =
      { change := { initializeForPostStep with
          position := some
            (if (|(theGlobalNormalOf nav.valid nav.exitNormal
                    aTrack.momentumDirection).x| = 1) ∧ cfg.periodic_x = true then
              (hyperStep.getD aStep).post.position.setX
                (-(hyperStep.getD aStep).post.position.x)
            else if (|(theGlobalNormalOf nav.valid nav.exitNormal
                    aTrack.momentumDirection).y| = 1) ∧ cfg.periodic_y = true then
              (hyperStep.getD aStep).post.position.setY
                (-(hyperStep.getD aStep).post.position.y)
            else if (|(theGlobalNormalOf nav.valid nav.exitNormal
                    aTrack.momentumDirection).z| = 1) ∧ cfg.periodic_z = true then
              (hyperStep.getD aStep).post.position.setZ
                (-(hyperStep.getD aStep).post.position.z)
            else (hyperStep.getD aStep).post.position) },
        status := .Cycling, statusWrites := 1,
        errors := if nav.valid then [] else [.PerBoun01],
        globalNormal :=
          some (theGlobalNormalOf nav.valid nav.exitNormal aTrack.momentumDirection),
        finalTouchable := (findSurface (hyperStep.getD aStep).pre.touchable
            (hyperStep.getD aStep).pre.touchable.getHistoryDepth).2 } := by
  have hp : (|(theGlobalNormalOf nav.valid nav.exitNormal aTrack.momentumDirection).x| = 1) ∨
      (|(theGlobalNormalOf nav.valid nav.exitNormal aTrack.momentumDirection).y| = 1) ∨
      (|(theGlobalNormalOf nav.valid nav.exitNormal aTrack.momentumDirection).z| = 1) := by
    rcases hper with ⟨h, _⟩ | ⟨h, _⟩ | ⟨h, _⟩
    · exact Or.inl h
    · exact Or.inr (Or.inl h)
    · exact Or.inr (Or.inr h)
  simp only [PostStepDoIt]
  rw [if_neg (by simp [hb]), if_neg hl, if_pos hf, if_pos hp, if_pos hper,
    if_neg (by simp [hrw])]

theorem pbc_globalNormal_main (cfg : PBConfig) (nav : Navigator) (hyperStep : Option Step)
    (aTrack : Track) (aStep : Step)
    (hb : (hyperStep.getD aStep).post.stepStatus = StepStatus.fGeomBoundary)
    (hl : ¬ aTrack.stepLength ≤ cfg.kCarTolerance / 2) :
    (PostStepDoIt cfg nav hyperStep aTrack aStep).globalNormal =
      some (theGlobalNormalOf nav.valid nav.exitNormal aTrack.momentumDirection) := by
  simp only [PostStepDoIt]
  rw [if_neg (by simp [hb]), if_neg hl]
  split_ifs <;> rfl

theorem pbc_finalTouchable_main (cfg : PBConfig) (nav : Navigator) (hyperStep : Option Step)
    (aTrack : Track) (aStep : Step)
    (hb : (hyperStep.getD aStep).post.stepStatus = StepStatus.fGeomBoundary)
    (hl : ¬ aTrack.stepLength ≤ cfg.kCarTolerance / 2) :
    (PostStepDoIt cfg nav hyperStep aTrack aStep).finalTouchable =
      (findSurface (hyperStep.getD aStep).pre.touchable
        (hyperStep.getD aStep).pre.touchable.getHistoryDepth).2 := by
  simp only [PostStepDoIt]
  rw [if_neg (by simp [hb]), if_neg hl]
  split_ifs <;> rfl

theorem abs_eq_one_iff (x : ℝ) : |x| = 1 ↔ x = 1 ∨ x = -1 :=
  abs_eq (by norm_num)

/-!
Claim theorems.
-/

/-- C1: for every PostStepDoIt call on a step that terminated at a geometric
boundary, with step length strictly greater than half the surface tolerance,
where a periodic-tagged surface is found on the touchable ancestor chain, the
global normal is axis-aligned on the X axis, periodic-X is enabled and reflect
mode is off: the proposed position is the old post-step position with its X
coordinate negated and Y, Z unchanged, no momentum-direction or polarization
change is proposed, and the status after the call is Cycling. -/
theorem C1_wrap_negates_x (cfg : PBConfig) (nav : Navigator) (hyperStep : Option Step)
    (aTrack : Track) (aStep : Step)
    (hb : (hyperStep.getD aStep).post.stepStatus = StepStatus.fGeomBoundary)
    (hl : cfg.kCarTolerance / 2 < aTrack.stepLength)
    (hf : (findSurface (hyperStep.getD aStep).pre.touchable
            (hyperStep.getD aStep).pre.touchable.getHistoryDepth).1 = true)
    (hx : |(theGlobalNormalOf nav.valid nav.exitNormal aTrack.momentumDirection).x| = 1)
    (hpx : cfg.periodic_x = true)
    (hrw : cfg.reflecting_walls = false) :
    (PostStepDoIt cfg nav hyperStep aTrack aStep).change.position =
      some ⟨-(hyperStep.getD aStep).post.position.x,
            (hyperStep.getD aStep).post.position.y,
            (hyperStep.getD aStep).post.position.z⟩ ∧
    (PostStepDoIt cfg nav hyperStep aTrack aStep).change.momentumDirection = none ∧
    (PostStepDoIt cfg nav hyperStep aTrack aStep).change.polarization = none ∧
    (PostStepDoIt cfg nav hyperStep aTrack aStep).status =
      G4PeriodicBoundaryProcessStatus.Cycling := by
  rw [pbc_wrap_x cfg nav hyperStep aTrack aStep hb (not_le.mpr hl) hf hx hpx hrw]
  exact ⟨rfl, rfl, rfl, rfl⟩

/-- Witness for C1 at a concrete wrap crossing: the post-step position (5,2,3)
is proposed as (-5,2,3) with status Cycling. -/
theorem C1_wrap_negates_x_witness :
    ((1 : ℝ) / 2 < 1) ∧
    (|(theGlobalNormalOf true ⟨-1, 0, 0⟩ ⟨1, 0, 0⟩).x| = 1) ∧
    ((PostStepDoIt ⟨true, true, true, false, 1⟩ ⟨⟨-1, 0, 0⟩, true⟩ none
        ⟨⟨1, 0, 0⟩, ⟨0, 0, 1⟩, 1⟩
        ⟨⟨⟨0, 0, 0⟩, .fGeomBoundary, ⟨[⟨true⟩, ⟨false⟩], 0⟩⟩,
         ⟨⟨5, 2, 3⟩, .fGeomBoundary, ⟨[⟨true⟩, ⟨false⟩], 0⟩⟩⟩).change.position =
      some ⟨-5, 2, 3⟩ ∧
    (PostStepDoIt ⟨true, true, true, false, 1⟩ ⟨⟨-1, 0, 0⟩, true⟩ none
        ⟨⟨1, 0, 0⟩, ⟨0, 0, 1⟩, 1⟩
        ⟨⟨⟨0, 0, 0⟩, .fGeomBoundary, ⟨[⟨true⟩, ⟨false⟩], 0⟩⟩,
         ⟨⟨5, 2, 3⟩, .fGeomBoundary, ⟨[⟨true⟩, ⟨false⟩], 0⟩⟩⟩).status =
      G4PeriodicBoundaryProcessStatus.Cycling) := by
  have hx : |(theGlobalNormalOf true ⟨-1, 0, 0⟩ ⟨1, 0, 0⟩).x| = 1 := by
    norm_num [theGlobalNormalOf, Vec3.neg, Vec3.dot, abs_eq_one_iff]
  have h := C1_wrap_negates_x ⟨true, true, true, false, 1⟩ ⟨⟨-1, 0, 0⟩, true⟩ none
    ⟨⟨1, 0, 0⟩, ⟨0, 0, 1⟩, 1⟩
    ⟨⟨⟨0, 0, 0⟩, .fGeomBoundary, ⟨[⟨true⟩, ⟨false⟩], 0⟩⟩,
     ⟨⟨5, 2, 3⟩, .fGeomBoundary, ⟨[⟨true⟩, ⟨false⟩], 0⟩⟩⟩
    rfl (by norm_num) rfl hx rfl rfl
  exact ⟨by norm_num, hx, h.1, h.2.2.2⟩

/-- C2: for every PostStepDoIt call reaching the periodic-plane branch with
reflect mode on, the proposed momentum direction is
old − 2 (old · n) n and the proposed polarization is
−old + 2 (old · n) n, both renormalized to unit length, no position change is
proposed, and the status is Reflection. -/
theorem C2_reflect_specular (cfg : PBConfig) (nav : Navigator) (hyperStep : Option Step)
    (aTrack : Track) (aStep : Step)
    (hb : (hyperStep.getD aStep).post.stepStatus = StepStatus.fGeomBoundary)
    (hl : cfg.kCarTolerance / 2 < aTrack.stepLength)
    (hf : (findSurface (hyperStep.getD aStep).pre.touchable
            (hyperStep.getD aStep).pre.touchable.getHistoryDepth).1 = true)
    (hper : ((|(theGlobalNormalOf nav.valid nav.exitNormal aTrack.momentumDirection).x| = 1) ∧
          cfg.periodic_x = true) ∨
        ((|(theGlobalNormalOf nav.valid nav.exitNormal aTrack.momentumDirection).y| = 1) ∧
          cfg.periodic_y = true) ∨
        ((|(theGlobalNormalOf nav.valid nav.exitNormal aTrack.momentumDirection).z| = 1) ∧
          cfg.periodic_z = true))
    (hrw : cfg.reflecting_walls = true) :
    (PostStepDoIt cfg nav hyperStep aTrack aStep).change.momentumDirection =
      some ((aTrack.momentumDirection.sub
        (Vec3.smul (2 * aTrack.momentumDirection.dot
            (theGlobalNormalOf nav.valid nav.exitNormal aTrack.momentumDirection))
          (theGlobalNormalOf nav.valid nav.exitNormal aTrack.momentumDirection))).unit) ∧
    (PostStepDoIt cfg nav hyperStep aTrack aStep).change.polarization =
      some (((aTrack.polarization.neg).add
        (Vec3.smul (2 * aTrack.polarization.dot
            (theGlobalNormalOf nav.valid nav.exitNormal aTrack.momentumDirection))
          (theGlobalNormalOf nav.valid nav.exitNormal aTrack.momentumDirection))).unit) ∧
    (PostStepDoIt cfg nav hyperStep aTrack aStep).change.position = none ∧
    (PostStepDoIt cfg nav hyperStep aTrack aStep).status =
      G4PeriodicBoundaryProcessStatus.Reflection := by
  rw [pbc_reflect cfg nav hyperStep aTrack aStep hb (not_le.mpr hl) hf hper hrw]
  exact ⟨rfl, rfl, rfl, rfl⟩

/-- Witness for C2 at the claim's particular instance: incoming momentum
(-1,0,0) on a unit-X-aligned global normal gives proposed momentum (1,0,0)
and status Reflection. -/
theorem C2_reflect_specular_witness :
    ((1 : ℝ) / 2 < 1) ∧
    (|(theGlobalNormalOf true ⟨-1, 0, 0⟩ ⟨-1, 0, 0⟩).x| = 1) ∧
    ((PostStepDoIt ⟨true, true, true, true, 1⟩ ⟨⟨-1, 0, 0⟩, true⟩ none
        ⟨⟨-1, 0, 0⟩, ⟨0, 0, 1⟩, 1⟩
        ⟨⟨⟨0, 0, 0⟩, .fGeomBoundary, ⟨[⟨true⟩, ⟨false⟩], 0⟩⟩,
         ⟨⟨0, 0, 0⟩, .fGeomBoundary, ⟨[⟨true⟩, ⟨false⟩], 0⟩⟩⟩).change.momentumDirection =
      some ⟨1, 0, 0⟩ ∧
    (PostStepDoIt ⟨true, true, true, true, 1⟩ ⟨⟨-1, 0, 0⟩, true⟩ none
        ⟨⟨-1, 0, 0⟩, ⟨0, 0, 1⟩, 1⟩
        ⟨⟨⟨0, 0, 0⟩, .fGeomBoundary, ⟨[⟨true⟩, ⟨false⟩], 0⟩⟩,
         ⟨⟨0, 0, 0⟩, .fGeomBoundary, ⟨[⟨true⟩, ⟨false⟩], 0⟩⟩⟩).status =
      G4PeriodicBoundaryProcessStatus.Reflection) := by
  have hn : theGlobalNormalOf true ⟨-1, 0, 0⟩ ⟨-1, 0, 0⟩ = (⟨1, 0, 0⟩ : Vec3) := by
    norm_num [theGlobalNormalOf, Vec3.neg, Vec3.dot]
  have hx : |(theGlobalNormalOf true ⟨-1, 0, 0⟩ ⟨-1, 0, 0⟩).x| = 1 := by
    rw [hn]
    norm_num
  have h := C2_reflect_specular ⟨true, true, true, true, 1⟩ ⟨⟨-1, 0, 0⟩, true⟩ none
    ⟨⟨-1, 0, 0⟩, ⟨0, 0, 1⟩, 1⟩
    ⟨⟨⟨0, 0, 0⟩, .fGeomBoundary, ⟨[⟨true⟩, ⟨false⟩], 0⟩⟩,
     ⟨⟨0, 0, 0⟩, .fGeomBoundary, ⟨[⟨true⟩, ⟨false⟩], 0⟩⟩⟩
    rfl (by norm_num) rfl (Or.inl ⟨hx, rfl⟩) rfl
  refine ⟨by norm_num, hx, ?_, h.2.2.2⟩
  rw [h.1, hn]
  have harg : Vec3.sub ⟨-1, 0, 0⟩
      (Vec3.smul (2 * Vec3.dot ⟨-1, 0, 0⟩ ⟨1, 0, 0⟩) ⟨1, 0, 0⟩) = (⟨1, 0, 0⟩ : Vec3) := by
    norm_num [Vec3.sub, Vec3.smul, Vec3.dot]
  rw [harg, Vec3.unit_of_mag2_one]
  norm_num [Vec3.mag2, Vec3.dot]

/-- C6: any call on a step at a geometric boundary whose track step length is
at most half the surface tolerance returns a no-op change with status
StepTooSmall and raises no error, regardless of surface tagging. -/
theorem C6_step_too_small (cfg : PBConfig) (nav : Navigator) (hyperStep : Option Step)
    (aTrack : Track) (aStep : Step)
    (hb : (hyperStep.getD aStep).post.stepStatus = StepStatus.fGeomBoundary)
    (hl : aTrack.stepLength ≤ cfg.kCarTolerance / 2) :
    (PostStepDoIt cfg nav hyperStep aTrack aStep).change = initializeForPostStep ∧
    (PostStepDoIt cfg nav hyperStep aTrack aStep).status =
      G4PeriodicBoundaryProcessStatus.StepTooSmall ∧
    (PostStepDoIt cfg nav hyperStep aTrack aStep).errors = [] := by
  rw [pbc_stepTooSmall cfg nav hyperStep aTrack aStep hb hl]
  exact ⟨rfl, rfl, rfl⟩

/-- Witness for C6: a zero-length step on a boundary with a periodic-tagged
leaf volume still yields StepTooSmall and no proposals. -/
theorem C6_step_too_small_witness :
    ((0 : ℝ) ≤ 1 / 2) ∧
    ((PostStepDoIt ⟨true, true, true, false, 1⟩ ⟨⟨-1, 0, 0⟩, true⟩ none
        ⟨⟨1, 0, 0⟩, ⟨0, 0, 1⟩, 0⟩
        ⟨⟨⟨0, 0, 0⟩, .fGeomBoundary, ⟨[⟨true⟩, ⟨false⟩], 0⟩⟩,
         ⟨⟨5, 2, 3⟩, .fGeomBoundary, ⟨[⟨true⟩, ⟨false⟩], 0⟩⟩⟩).change =
      initializeForPostStep ∧
    (PostStepDoIt ⟨true, true, true, false, 1⟩ ⟨⟨-1, 0, 0⟩, true⟩ none
        ⟨⟨1, 0, 0⟩, ⟨0, 0, 1⟩, 0⟩
        ⟨⟨⟨0, 0, 0⟩, .fGeomBoundary, ⟨[⟨true⟩, ⟨false⟩], 0⟩⟩,
         ⟨⟨5, 2, 3⟩, .fGeomBoundary, ⟨[⟨true⟩, ⟨false⟩], 0⟩⟩⟩).status =
      G4PeriodicBoundaryProcessStatus.StepTooSmall) := by
  have h := C6_step_too_small ⟨true, true, true, false, 1⟩ ⟨⟨-1, 0, 0⟩, true⟩ none
    ⟨⟨1, 0, 0⟩, ⟨0, 0, 1⟩, 0⟩
    ⟨⟨⟨0, 0, 0⟩, .fGeomBoundary, ⟨[⟨true⟩, ⟨false⟩], 0⟩⟩,
     ⟨⟨5, 2, 3⟩, .fGeomBoundary, ⟨[⟨true⟩, ⟨false⟩], 0⟩⟩⟩
    rfl (by norm_num)
  exact ⟨by norm_num, h.1, h.2.1⟩

/-- C7: when the call reaches the axis test with a global normal axis-aligned
on exactly one axis whose periodic configuration boolean is disabled, the call
returns a no-op change (no position, momentum or polarization proposal), no
error is raised, and the status is left Undefined even though the surface is
periodic-tagged. -/
theorem C7_disabled_axis_noop (cfg : PBConfig) (nav : Navigator) (hyperStep : Option Step)
    (aTrack : Track) (aStep : Step)
    (hb : (hyperStep.getD aStep).post.stepStatus = StepStatus.fGeomBoundary)
    (hl : cfg.kCarTolerance / 2 < aTrack.stepLength)
    (hv : nav.valid = true)
    (hf : (findSurface (hyperStep.getD aStep).pre.touchable
            (hyperStep.getD aStep).pre.touchable.getHistoryDepth).1 = true)
    (hcase :
      ((|(theGlobalNormalOf nav.valid nav.exitNormal aTrack.momentumDirection).x| = 1) ∧
        ¬ (|(theGlobalNormalOf nav.valid nav.exitNormal aTrack.momentumDirection).y| = 1) ∧
        ¬ (|(theGlobalNormalOf nav.valid nav.exitNormal aTrack.momentumDirection).z| = 1) ∧
        cfg.periodic_x = false) ∨
      (¬ (|(theGlobalNormalOf nav.valid nav.exitNormal aTrack.momentumDirection).x| = 1) ∧
        (|(theGlobalNormalOf nav.valid nav.exitNormal aTrack.momentumDirection).y| = 1) ∧
        ¬ (|(theGlobalNormalOf nav.valid nav.exitNormal aTrack.momentumDirection).z| = 1) ∧
        cfg.periodic_y = false) ∨
      (¬ (|(theGlobalNormalOf nav.valid nav.exitNormal aTrack.momentumDirection).x| = 1) ∧
        ¬ (|(theGlobalNormalOf nav.valid nav.exitNormal aTrack.momentumDirection).y| = 1) ∧
        (|(theGlobalNormalOf nav.valid nav.exitNormal aTrack.momentumDirection).z| = 1) ∧
        cfg.periodic_z = false)) :
    (PostStepDoIt cfg nav hyperStep aTrack aStep).change = initializeForPostStep ∧
    (PostStepDoIt cfg nav hyperStep aTrack aStep).errors = [] ∧
    (PostStepDoIt cfg nav hyperStep aTrack aStep).status =
      G4PeriodicBoundaryProcessStatus.Undefined := by
  have hp : (|(theGlobalNormalOf nav.valid nav.exitNormal aTrack.momentumDirection).x| = 1) ∨
      (|(theGlobalNormalOf nav.valid nav.exitNormal aTrack.momentumDirection).y| = 1) ∨
      (|(theGlobalNormalOf nav.valid nav.exitNormal aTrack.momentumDirection).z| = 1) := by
    rcases hcase with ⟨h, _, _, _⟩ | ⟨_, h, _, _⟩ | ⟨_, _, h, _⟩
    · exact Or.inl h
    · exact Or.inr (Or.inl h)
    · exact Or.inr (Or.inr h)
  have hnper : ¬ (((|(theGlobalNormalOf nav.valid nav.exitNormal
          aTrack.momentumDirection).x| = 1) ∧ cfg.periodic_x = true) ∨
      ((|(theGlobalNormalOf nav.valid nav.exitNormal
          aTrack.momentumDirection).y| = 1) ∧ cfg.periodic_y = true) ∨
      ((|(theGlobalNormalOf nav.valid nav.exitNormal
          aTrack.momentumDirection).z| = 1) ∧ cfg.periodic_z = true)) := by
    rcases hcase with ⟨_, hny, hnz, hdx⟩ | ⟨hnx, _, hnz, hdy⟩ | ⟨hnx, hny, _, hdz⟩ <;>
      rintro (⟨ha, hpa⟩ | ⟨ha, hpa⟩ | ⟨ha, hpa⟩) <;> simp_all
  rw [pbc_notPeriodicAxis cfg nav hyperStep aTrack aStep hb (not_le.mpr hl) hf hp hnper]
  refine ⟨rfl, ?_, rfl⟩
  simp [hv]

/-- Witness for C7: an X-aligned normal with periodic-X disabled (Y, Z
enabled) on a tagged surface yields no proposals and no error. -/
theorem C7_disabled_axis_noop_witness :
    ((1 : ℝ) / 2 < 1) ∧
    (|(theGlobalNormalOf true ⟨-1, 0, 0⟩ ⟨1, 0, 0⟩).x| = 1) ∧
    ((PostStepDoIt ⟨false, true, true, false, 1⟩ ⟨⟨-1, 0, 0⟩, true⟩ none
        ⟨⟨1, 0, 0⟩, ⟨0, 0, 1⟩, 1⟩
        ⟨⟨⟨0, 0, 0⟩, .fGeomBoundary, ⟨[⟨true⟩, ⟨false⟩], 0⟩⟩,
         ⟨⟨5, 2, 3⟩, .fGeomBoundary, ⟨[⟨true⟩, ⟨false⟩], 0⟩⟩⟩).change =
      initializeForPostStep ∧
    (PostStepDoIt ⟨false, true, true, false, 1⟩ ⟨⟨-1, 0, 0⟩, true⟩ none
        ⟨⟨1, 0, 0⟩, ⟨0, 0, 1⟩, 1⟩
        ⟨⟨⟨0, 0, 0⟩, .fGeomBoundary, ⟨[⟨true⟩, ⟨false⟩], 0⟩⟩,
         ⟨⟨5, 2, 3⟩, .fGeomBoundary, ⟨[⟨true⟩, ⟨false⟩], 0⟩⟩⟩).errors = []) := by
  have hn : theGlobalNormalOf true ⟨-1, 0, 0⟩ ⟨1, 0, 0⟩ = (⟨-1, 0, 0⟩ : Vec3) := by
    norm_num [theGlobalNormalOf, Vec3.neg, Vec3.dot]
  have h := C7_disabled_axis_noop ⟨false, true, true, false, 1⟩ ⟨⟨-1, 0, 0⟩, true⟩ none
    ⟨⟨1, 0, 0⟩, ⟨0, 0, 1⟩, 1⟩
    ⟨⟨⟨0, 0, 0⟩, .fGeomBoundary, ⟨[⟨true⟩, ⟨false⟩], 0⟩⟩,
     ⟨⟨5, 2, 3⟩, .fGeomBoundary, ⟨[⟨true⟩, ⟨false⟩], 0⟩⟩⟩
    rfl (by norm_num) rfl rfl
    (Or.inl ⟨by rw [hn]; norm_num, by rw [hn]; norm_num, by rw [hn]; norm_num, rfl⟩)
  exact ⟨by norm_num, by rw [hn]; norm_num, h.1, h.2.1⟩

/-- C8: in wrap mode the axis tests are taken in order X, then Y, then Z, and
only the first matching test takes effect: exactly the coordinate of the first
matching axis is negated and the later aligned axes are ignored for that
call. -/
theorem C8_first_axis_precedence (cfg : PBConfig) (nav : Navigator) (hyperStep : Option Step)
    (aTrack : Track) (aStep : Step)
    (hb : (hyperStep.getD aStep).post.stepStatus = StepStatus.fGeomBoundary)
    (hl : cfg.kCarTolerance / 2 < aTrack.stepLength)
    (hf : (findSurface (hyperStep.getD aStep).pre.touchable
            (hyperStep.getD aStep).pre.touchable.getHistoryDepth).1 = true)
    (hrw : cfg.reflecting_walls = false) :
    (((|(theGlobalNormalOf nav.valid nav.exitNormal aTrack.momentumDirection).x| = 1) ∧
        cfg.periodic_x = true) →
      (PostStepDoIt cfg nav hyperStep aTrack aStep).change.position =
        some ⟨-(hyperStep.getD aStep).post.position.x,
              (hyperStep.getD aStep).post.position.y,
              (hyperStep.getD aStep).post.position.z⟩) ∧
    ((¬ ((|(theGlobalNormalOf nav.valid nav.exitNormal aTrack.momentumDirection).x| = 1) ∧
          cfg.periodic_x = true) ∧
        ((|(theGlobalNormalOf nav.valid nav.exitNormal aTrack.momentumDirection).y| = 1) ∧
          cfg.periodic_y = true)) →
      (PostStepDoIt cfg nav hyperStep aTrack aStep).change.position =
        some ⟨(hyperStep.getD aStep).post.position.x,
              -(hyperStep.getD aStep).post.position.y,
              (hyperStep.getD aStep).post.position.z⟩) ∧
    ((¬ ((|(theGlobalNormalOf nav.valid nav.exitNormal aTrack.momentumDirection).x| = 1) ∧
          cfg.periodic_x = true) ∧
        ¬ ((|(theGlobalNormalOf nav.valid nav.exitNormal aTrack.momentumDirection).y| = 1) ∧
          cfg.periodic_y = true) ∧
        ((|(theGlobalNormalOf nav.valid nav.exitNormal aTrack.momentumDirection).z| = 1) ∧
          cfg.periodic_z = true)) →
      (PostStepDoIt cfg nav hyperStep aTrack aStep).change.position =
        some ⟨(hyperStep.getD aStep).post.position.x,
              (hyperStep.getD aStep).post.position.y,
              -(hyperStep.getD aStep).post.position.z⟩) := by
  refine ⟨?_, ?_, ?_⟩
  · rintro ⟨hx, hpx⟩
    rw [pbc_wrap_x cfg nav hyperStep aTrack aStep hb (not_le.mpr hl) hf hx hpx hrw]
    rfl
  · rintro ⟨hnx, hy, hpy⟩
    rw [pbc_wrap_y cfg nav hyperStep aTrack aStep hb (not_le.mpr hl) hf hnx hy hpy hrw]
    rfl
  · rintro ⟨hnx, hny, hz, hpz⟩
    rw [pbc_wrap_z cfg nav hyperStep aTrack aStep hb (not_le.mpr hl) hf hnx hny hz hpz hrw]
    rfl

/-- Witness for C8: a normal simultaneously aligned on X and Y with both axes
enabled wraps only the X coordinate; Y and Z are untouched. -/
theorem C8_first_axis_precedence_witness :
    (|(theGlobalNormalOf true ⟨-1, -1, 0⟩ ⟨0, 0, 1⟩).x| = 1) ∧
    (|(theGlobalNormalOf true ⟨-1, -1, 0⟩ ⟨0, 0, 1⟩).y| = 1) ∧
    (PostStepDoIt ⟨true, true, true, false, 1⟩ ⟨⟨-1, -1, 0⟩, true⟩ none
        ⟨⟨0, 0, 1⟩, ⟨0, 0, 1⟩, 1⟩
        ⟨⟨⟨0, 0, 0⟩, .fGeomBoundary, ⟨[⟨true⟩, ⟨false⟩], 0⟩⟩,
         ⟨⟨5, 2, 3⟩, .fGeomBoundary, ⟨[⟨true⟩, ⟨false⟩], 0⟩⟩⟩).change.position =
      some ⟨-5, 2, 3⟩ := by
  have hn : theGlobalNormalOf true ⟨-1, -1, 0⟩ ⟨0, 0, 1⟩ = (⟨1, 1, 0⟩ : Vec3) := by
    norm_num [theGlobalNormalOf, Vec3.neg, Vec3.dot]
  have h := C8_first_axis_precedence ⟨true, true, true, false, 1⟩ ⟨⟨-1, -1, 0⟩, true⟩ none
    ⟨⟨0, 0, 1⟩, ⟨0, 0, 1⟩, 1⟩
    ⟨⟨⟨0, 0, 0⟩, .fGeomBoundary, ⟨[⟨true⟩, ⟨false⟩], 0⟩⟩,
     ⟨⟨5, 2, 3⟩, .fGeomBoundary, ⟨[⟨true⟩, ⟨false⟩], 0⟩⟩⟩
    rfl (by norm_num) rfl rfl
  exact ⟨by rw [hn]; norm_num, by rw [hn]; norm_num,
    h.1 ⟨by rw [hn]; norm_num, rfl⟩⟩

/-- C10: every PostStepDoIt call resets theStatus to Undefined at its start and
assigns it at most once more, so that exactly one status value holds at
return: the write count after the reset is at most one, and when it is zero
the status is still Undefined. -/
theorem C10_status_single_write (cfg : PBConfig) (nav : Navigator) (hyperStep : Option Step)
    (aTrack : Track) (aStep : Step) :
    (PostStepDoIt cfg nav hyperStep aTrack aStep).statusWrites ≤ 1 ∧
    ((PostStepDoIt cfg nav hyperStep aTrack aStep).status =
        G4PeriodicBoundaryProcessStatus.Undefined ∨
      (PostStepDoIt cfg nav hyperStep aTrack aStep).statusWrites = 1) := by
  simp only [PostStepDoIt]
  split_ifs <;> simp

/-- C3: when a periodic-tagged surface is found past the guards and the
navigator's exit normal is a unit vector, the global normal is accepted as
axis-aligned exactly when exactly one Cartesian component has unit magnitude
(the comparison in the code is exact equality); when it is not axis-aligned,
the Periodic01 fatal event-abort error is raised and no state change is
proposed (no axis is guessed). -/
theorem C3_axis_aligned_check (cfg : PBConfig) (nav : Navigator) (hyperStep : Option Step)
    (aTrack : Track) (aStep : Step)
    (hb : (hyperStep.getD aStep).post.stepStatus = StepStatus.fGeomBoundary)
    (hl : cfg.kCarTolerance / 2 < aTrack.stepLength)
    (hf : (findSurface (hyperStep.getD aStep).pre.touchable
            (hyperStep.getD aStep).pre.touchable.getHistoryDepth).1 = true)
    (hunit : nav.exitNormal.mag2 = 1) :
    (G4ExceptionCode.Periodic01 ∈ (PostStepDoIt cfg nav hyperStep aTrack aStep).errors ↔
      ¬ (((|(theGlobalNormalOf nav.valid nav.exitNormal aTrack.momentumDirection).x| = 1) ∧
          ¬ (|(theGlobalNormalOf nav.valid nav.exitNormal aTrack.momentumDirection).y| = 1) ∧
          ¬ (|(theGlobalNormalOf nav.valid nav.exitNormal aTrack.momentumDirection).z| = 1)) ∨
        (¬ (|(theGlobalNormalOf nav.valid nav.exitNormal aTrack.momentumDirection).x| = 1) ∧
          (|(theGlobalNormalOf nav.valid nav.exitNormal aTrack.momentumDirection).y| = 1) ∧
          ¬ (|(theGlobalNormalOf nav.valid nav.exitNormal aTrack.momentumDirection).z| = 1)) ∨
        (¬ (|(theGlobalNormalOf nav.valid nav.exitNormal aTrack.momentumDirection).x| = 1) ∧
          ¬ (|(theGlobalNormalOf nav.valid nav.exitNormal aTrack.momentumDirection).y| = 1) ∧
          (|(theGlobalNormalOf nav.valid nav.exitNormal aTrack.momentumDirection).z| = 1)))) ∧
    (¬ ((|(theGlobalNormalOf nav.valid nav.exitNormal aTrack.momentumDirection).x| = 1) ∨
        (|(theGlobalNormalOf nav.valid nav.exitNormal aTrack.momentumDirection).y| = 1) ∨
        (|(theGlobalNormalOf nav.valid nav.exitNormal aTrack.momentumDirection).z| = 1)) →
      (PostStepDoIt cfg nav hyperStep aTrack aStep).change = initializeForPostStep ∧
      (PostStepDoIt cfg nav hyperStep aTrack aStep).status =
        G4PeriodicBoundaryProcessStatus.Undefined) := by
  have hn : (theGlobalNormalOf nav.valid nav.exitNormal aTrack.momentumDirection).mag2 = 1 := by
    rw [orient_mag2]
    exact hunit
  have hiff := aligned_unique (theGlobalNormalOf nav.valid nav.exitNormal
    aTrack.momentumDirection) hn
  by_cases hp : (|(theGlobalNormalOf nav.valid nav.exitNormal
        aTrack.momentumDirection).x| = 1) ∨
      (|(theGlobalNormalOf nav.valid nav.exitNormal aTrack.momentumDirection).y| = 1) ∨
      (|(theGlobalNormalOf nav.valid nav.exitNormal aTrack.momentumDirection).z| = 1)
  · have herr : G4ExceptionCode.Periodic01 ∉
        (PostStepDoIt cfg nav hyperStep aTrack aStep).errors := by
      by_cases hper : ((|(theGlobalNormalOf nav.valid nav.exitNormal
            aTrack.momentumDirection).x| = 1) ∧ cfg.periodic_x = true) ∨
          ((|(theGlobalNormalOf nav.valid nav.exitNormal
            aTrack.momentumDirection).y| = 1) ∧ cfg.periodic_y = true) ∨
          ((|(theGlobalNormalOf nav.valid nav.exitNormal
            aTrack.momentumDirection).z| = 1) ∧ cfg.periodic_z = true)
      · by_cases hrw : cfg.reflecting_walls = true
        · rw [pbc_reflect cfg nav hyperStep aTrack aStep hb (not_le.mpr hl) hf hper hrw]
          split_ifs <;> simp
        · have hrw' : cfg.reflecting_walls = false := by simpa using hrw
          rw [pbc_wrap cfg nav hyperStep aTrack aStep hb (not_le.mpr hl) hf hper hrw']
          split_ifs <;> simp
      · rw [pbc_notPeriodicAxis cfg nav hyperStep aTrack aStep hb (not_le.mpr hl) hf hp hper]
        split_ifs <;> simp
    exact ⟨iff_of_false herr (not_not_intro (hiff.mp hp)), fun hnp => absurd hp hnp⟩
  · rw [pbc_notOnPlane cfg nav hyperStep aTrack aStep hb (not_le.mpr hl) hf hp]
    refine ⟨iff_of_true (by simp) (fun hexact => hp (hiff.mpr hexact)), fun _ => ⟨rfl, rfl⟩⟩

/-- Witness for C3: the unit normal (3/5, 4/5, 0) is not axis-aligned, so the
Periodic01 event-abort error is raised on a tagged surface. -/
theorem C3_axis_aligned_check_witness :
    (Vec3.mag2 ⟨3 / 5, 4 / 5, 0⟩ = 1) ∧
    G4ExceptionCode.Periodic01 ∈ (PostStepDoIt ⟨true, true, true, false, 1⟩
      ⟨⟨3 / 5, 4 / 5, 0⟩, true⟩ none ⟨⟨0, 0, 1⟩, ⟨0, 0, 1⟩, 1⟩
      ⟨⟨⟨0, 0, 0⟩, .fGeomBoundary, ⟨[⟨true⟩, ⟨false⟩], 0⟩⟩,
       ⟨⟨5, 2, 3⟩, .fGeomBoundary, ⟨[⟨true⟩, ⟨false⟩], 0⟩⟩⟩).errors := by
  have h := C3_axis_aligned_check ⟨true, true, true, false, 1⟩ ⟨⟨3 / 5, 4 / 5, 0⟩, true⟩ none
    ⟨⟨0, 0, 1⟩, ⟨0, 0, 1⟩, 1⟩
    ⟨⟨⟨0, 0, 0⟩, .fGeomBoundary, ⟨[⟨true⟩, ⟨false⟩], 0⟩⟩,
     ⟨⟨5, 2, 3⟩, .fGeomBoundary, ⟨[⟨true⟩, ⟨false⟩], 0⟩⟩⟩
    rfl (by norm_num) rfl (by norm_num [Vec3.mag2, Vec3.dot])
  refine ⟨by norm_num [Vec3.mag2, Vec3.dot], h.1.mpr ?_⟩
  norm_num [theGlobalNormalOf, Vec3.neg, Vec3.dot, abs_eq_one_iff]

/-- C4 (amended): on the main path with a valid navigator answer, the stored
global normal is the returned exit normal negated exactly when the returned
normal's dot product with the incoming momentum is nonnegative (the source
negates also at dot product exactly zero, which the original claim placed in
the unchanged case), and the final normal always opposes the incoming momentum
(dot product at most zero). -/
theorem C4_normal_orientation_amended (cfg : PBConfig) (nav : Navigator)
    (hyperStep : Option Step) (aTrack : Track) (aStep : Step)
    (hv : nav.valid = true)
    (hb : (hyperStep.getD aStep).post.stepStatus = StepStatus.fGeomBoundary)
    (hl : cfg.kCarTolerance / 2 < aTrack.stepLength) :
    (PostStepDoIt cfg nav hyperStep aTrack aStep).globalNormal =
      some (theGlobalNormalOf nav.valid nav.exitNormal aTrack.momentumDirection) ∧
    (theGlobalNormalOf nav.valid nav.exitNormal aTrack.momentumDirection =
        nav.exitNormal.neg ↔ 0 ≤ aTrack.momentumDirection.dot nav.exitNormal) ∧
    aTrack.momentumDirection.dot
      (theGlobalNormalOf nav.valid nav.exitNormal aTrack.momentumDirection) ≤ 0 := by
  refine ⟨pbc_globalNormal_main cfg nav hyperStep aTrack aStep hb (not_le.mpr hl), ?_, ?_⟩
  · rw [hv]
    exact orient_eq_neg_iff nav.exitNormal aTrack.momentumDirection
  · rw [hv]
    exact orient_opposes nav.exitNormal aTrack.momentumDirection

/-- C4 counterexample: the valid returned normal (1,0,0) is orthogonal to the
incoming momentum (0,1,0), so its dot product with the momentum is 0, not
greater than 0, and the original claim requires the normal to be stored
unchanged; the code stores its negation (-1,0,0). -/
theorem C4_counterexample :
    (PostStepDoIt ⟨true, true, true, false, 1⟩ ⟨⟨1, 0, 0⟩, true⟩ none
        ⟨⟨0, 1, 0⟩, ⟨0, 0, 1⟩, 1⟩
        ⟨⟨⟨0, 0, 0⟩, .fGeomBoundary, ⟨[⟨false⟩], 0⟩⟩,
         ⟨⟨0, 0, 0⟩, .fGeomBoundary, ⟨[⟨false⟩], 0⟩⟩⟩).globalNormal =
      some ⟨-1, 0, 0⟩ ∧
    Vec3.dot ⟨0, 1, 0⟩ ⟨1, 0, 0⟩ = 0 ∧
    (⟨-1, 0, 0⟩ : Vec3) ≠ (⟨1, 0, 0⟩ : Vec3) := by
  refine ⟨?_, by norm_num [Vec3.dot], ?_⟩
  · rw [pbc_globalNormal_main (⟨true, true, true, false, 1⟩ : PBConfig) ⟨⟨1, 0, 0⟩, true⟩ none
      ⟨⟨0, 1, 0⟩, ⟨0, 0, 1⟩, 1⟩
      ⟨⟨⟨0, 0, 0⟩, .fGeomBoundary, ⟨[⟨false⟩], 0⟩⟩,
       ⟨⟨0, 0, 0⟩, .fGeomBoundary, ⟨[⟨false⟩], 0⟩⟩⟩ rfl (by norm_num)]
    norm_num [theGlobalNormalOf, Vec3.neg, Vec3.dot]
  · intro hcontra
    have hx := congrArg Vec3.x hcontra
    norm_num at hx

/-- Witness for C4 (amended) at a concrete input with positive dot product:
the normal is stored negated and the stored normal opposes the momentum. -/
theorem C4_normal_orientation_amended_witness :
    ((1 : ℝ) / 2 < 1) ∧
    (theGlobalNormalOf true ⟨0, 0, 1⟩ ⟨0, 0, 1⟩ = Vec3.neg ⟨0, 0, 1⟩ ↔
      0 ≤ Vec3.dot ⟨0, 0, 1⟩ ⟨0, 0, 1⟩) ∧
    Vec3.dot ⟨0, 0, 1⟩ (theGlobalNormalOf true ⟨0, 0, 1⟩ ⟨0, 0, 1⟩) ≤ 0 := by
  have h := C4_normal_orientation_amended ⟨true, true, true, false, 1⟩ ⟨⟨0, 0, 1⟩, true⟩ none
    ⟨⟨0, 0, 1⟩, ⟨0, 0, 1⟩, 1⟩
    ⟨⟨⟨0, 0, 0⟩, .fGeomBoundary, ⟨[⟨false⟩], 0⟩⟩,
     ⟨⟨0, 0, 0⟩, .fGeomBoundary, ⟨[⟨false⟩], 0⟩⟩⟩
    rfl rfl (by norm_num)
  exact ⟨by norm_num, h.2.1, h.2.2⟩

/-- C5 (amended): the tag lookup walks the pre-step touchable's chain from the
innermost volume outward, but it examines only GetHistoryDepth entries — one
fewer than the chain — so the outermost (world) history entry is never
examined; within the examined range it stops at the first tagged volume; and
when none of the examined volumes is tagged, the call returns a no-op change
with no error raised and status left Undefined. -/
theorem C5_tag_search_amended (cfg : PBConfig) (nav : Navigator) (hyperStep : Option Step)
    (aTrack : Track) (aStep : Step)
    (hb : (hyperStep.getD aStep).post.stepStatus = StepStatus.fGeomBoundary)
    (hl : cfg.kCarTolerance / 2 < aTrack.stepLength)
    (hv : nav.valid = true) :
    ((findSurface (hyperStep.getD aStep).pre.touchable
        (hyperStep.getD aStep).pre.touchable.getHistoryDepth).1 = true ↔
      ∃ i, i < (hyperStep.getD aStep).pre.touchable.getHistoryDepth ∧
        ((hyperStep.getD aStep).pre.touchable.chain.getD
          ((hyperStep.getD aStep).pre.touchable.offset + i) ⟨false⟩).skinSurface = true) ∧
    ((findSurface (hyperStep.getD aStep).pre.touchable
        (hyperStep.getD aStep).pre.touchable.getHistoryDepth).1 = true →
      (((hyperStep.getD aStep).pre.touchable.chain.getD
          ((hyperStep.getD aStep).pre.touchable.offset +
            searchSteps (hyperStep.getD aStep).pre.touchable
              (hyperStep.getD aStep).pre.touchable.getHistoryDepth)
          ⟨false⟩).skinSurface = true ∧
        ∀ j, j < searchSteps (hyperStep.getD aStep).pre.touchable
            (hyperStep.getD aStep).pre.touchable.getHistoryDepth →
          ((hyperStep.getD aStep).pre.touchable.chain.getD
            ((hyperStep.getD aStep).pre.touchable.offset + j) ⟨false⟩).skinSurface = false)) ∧
    ((findSurface (hyperStep.getD aStep).pre.touchable
        (hyperStep.getD aStep).pre.touchable.getHistoryDepth).1 = false →
      (PostStepDoIt cfg nav hyperStep aTrack aStep).change = initializeForPostStep ∧
      (PostStepDoIt cfg nav hyperStep aTrack aStep).errors = [] ∧
      (PostStepDoIt cfg nav hyperStep aTrack aStep).status =
        G4PeriodicBoundaryProcessStatus.Undefined) ∧
    (PostStepDoIt cfg nav hyperStep aTrack aStep).finalTouchable =
      (findSurface (hyperStep.getD aStep).pre.touchable
        (hyperStep.getD aStep).pre.touchable.getHistoryDepth).2 := by
  refine ⟨findSurface_found_iff _ _, fun hff => searchSteps_spec _ _ hff, fun hff => ?_,
    pbc_finalTouchable_main cfg nav hyperStep aTrack aStep hb (not_le.mpr hl)⟩
  rw [pbc_noSurface cfg nav hyperStep aTrack aStep hb (not_le.mpr hl) hff]
  exact ⟨rfl, by simp [hv], rfl⟩

/-- Witness for C5 (amended): in the chain [leaf untagged, second ancestor
tagged, world], the search finds the tag carried by the second ancestor. -/
theorem C5_tag_search_amended_witness :
    ((1 : ℝ) / 2 < 1) ∧
    (findSurface (⟨[⟨false⟩, ⟨true⟩, ⟨false⟩], 0⟩ : Touchable)
      (Touchable.getHistoryDepth ⟨[⟨false⟩, ⟨true⟩, ⟨false⟩], 0⟩)).1 = true := by
  have h := C5_tag_search_amended ⟨true, true, true, false, 1⟩ ⟨⟨-1, 0, 0⟩, true⟩ none
    ⟨⟨1, 0, 0⟩, ⟨0, 0, 1⟩, 1⟩
    ⟨⟨⟨0, 0, 0⟩, .fGeomBoundary, ⟨[⟨false⟩, ⟨true⟩, ⟨false⟩], 0⟩⟩,
     ⟨⟨5, 2, 3⟩, .fGeomBoundary, ⟨[⟨false⟩, ⟨true⟩, ⟨false⟩], 0⟩⟩⟩
    rfl (by norm_num) rfl
  exact ⟨by norm_num, h.1.mpr ⟨1, by decide, by decide⟩⟩

/-- C5 counterexample: with chain [leaf untagged, world tagged] every other
wrap condition holds and the chain does contain a tagged volume, but
GetHistoryDepth is 1, the world entry is never examined, and the call is a
no-op with status Undefined — the claim's walk would have stopped at the
world's tag and wrapped. -/
theorem C5_counterexample :
    ((⟨[⟨false⟩, ⟨true⟩], 0⟩ : Touchable).chain.any (fun v => v.skinSurface) = true) ∧
    (|(theGlobalNormalOf true ⟨-1, 0, 0⟩ ⟨1, 0, 0⟩).x| = 1) ∧
    (PostStepDoIt ⟨true, true, true, false, 1⟩ ⟨⟨-1, 0, 0⟩, true⟩ none
        ⟨⟨1, 0, 0⟩, ⟨0, 0, 1⟩, 1⟩
        ⟨⟨⟨0, 0, 0⟩, .fGeomBoundary, ⟨[⟨false⟩, ⟨true⟩], 0⟩⟩,
         ⟨⟨5, 2, 3⟩, .fGeomBoundary, ⟨[⟨false⟩, ⟨true⟩], 0⟩⟩⟩).status =
      G4PeriodicBoundaryProcessStatus.Undefined ∧
    (PostStepDoIt ⟨true, true, true, false, 1⟩ ⟨⟨-1, 0, 0⟩, true⟩ none
        ⟨⟨1, 0, 0⟩, ⟨0, 0, 1⟩, 1⟩
        ⟨⟨⟨0, 0, 0⟩, .fGeomBoundary, ⟨[⟨false⟩, ⟨true⟩], 0⟩⟩,
         ⟨⟨5, 2, 3⟩, .fGeomBoundary, ⟨[⟨false⟩, ⟨true⟩], 0⟩⟩⟩).change.position = none := by
  refine ⟨by decide, by norm_num [theGlobalNormalOf, Vec3.neg, Vec3.dot, abs_eq_one_iff],
    ?_, ?_⟩
  · rw [pbc_noSurface (⟨true, true, true, false, 1⟩ : PBConfig) ⟨⟨-1, 0, 0⟩, true⟩ none
      ⟨⟨1, 0, 0⟩, ⟨0, 0, 1⟩, 1⟩
      ⟨⟨⟨0, 0, 0⟩, .fGeomBoundary, ⟨[⟨false⟩, ⟨true⟩], 0⟩⟩,
       ⟨⟨5, 2, 3⟩, .fGeomBoundary, ⟨[⟨false⟩, ⟨true⟩], 0⟩⟩⟩ rfl (by norm_num) (by decide)]
  · rw [pbc_noSurface (⟨true, true, true, false, 1⟩ : PBConfig) ⟨⟨-1, 0, 0⟩, true⟩ none
      ⟨⟨1, 0, 0⟩, ⟨0, 0, 1⟩, 1⟩
      ⟨⟨⟨0, 0, 0⟩, .fGeomBoundary, ⟨[⟨false⟩, ⟨true⟩], 0⟩⟩,
       ⟨⟨5, 2, 3⟩, .fGeomBoundary, ⟨[⟨false⟩, ⟨true⟩], 0⟩⟩⟩ rfl (by norm_num) (by decide)]
    rfl

/-- C9 (amended): momentum, polarization and position updates appear only as
proposals in the returned change object, but the pre-step point's touchable is
mutated in place: on the main path the tag search leaves it moved up by the
number of untagged levels it visited (its chain is unchanged but its level is
advanced), and it is not restored before the call returns. -/
theorem C9_touchable_mutation_amended (cfg : PBConfig) (nav : Navigator)
    (hyperStep : Option Step) (aTrack : Track) (aStep : Step)
    (hb : (hyperStep.getD aStep).post.stepStatus = StepStatus.fGeomBoundary)
    (hl : cfg.kCarTolerance / 2 < aTrack.stepLength) :
    (PostStepDoIt cfg nav hyperStep aTrack aStep).finalTouchable.chain =
      (hyperStep.getD aStep).pre.touchable.chain ∧
    (PostStepDoIt cfg nav hyperStep aTrack aStep).finalTouchable.offset =
      (hyperStep.getD aStep).pre.touchable.offset +
        searchSteps (hyperStep.getD aStep).pre.touchable
          (hyperStep.getD aStep).pre.touchable.getHistoryDepth := by
  rw [pbc_finalTouchable_main cfg nav hyperStep aTrack aStep hb (not_le.mpr hl)]
  exact ⟨findSurface_chain _ _, findSurface_offset _ _⟩

/-- Witness for C9 (amended): with an untagged leaf below a tagged ancestor
the search performs one MoveUpHistory, leaving the touchable at offset 1. -/
theorem C9_touchable_mutation_amended_witness :
    ((1 : ℝ) / 2 < 1) ∧
    (PostStepDoIt ⟨true, true, true, false, 1⟩ ⟨⟨-1, 0, 0⟩, true⟩ none
        ⟨⟨1, 0, 0⟩, ⟨0, 0, 1⟩, 1⟩
        ⟨⟨⟨0, 0, 0⟩, .fGeomBoundary, ⟨[⟨false⟩, ⟨true⟩, ⟨false⟩], 0⟩⟩,
         ⟨⟨5, 2, 3⟩, .fGeomBoundary,
          ⟨[⟨false⟩, ⟨true⟩, ⟨false⟩], 0⟩⟩⟩).finalTouchable.offset =
      0 + searchSteps ⟨[⟨false⟩, ⟨true⟩, ⟨false⟩], 0⟩
        (Touchable.getHistoryDepth ⟨[⟨false⟩, ⟨true⟩, ⟨false⟩], 0⟩) := by
  have h := C9_touchable_mutation_amended ⟨true, true, true, false, 1⟩ ⟨⟨-1, 0, 0⟩, true⟩ none
    ⟨⟨1, 0, 0⟩, ⟨0, 0, 1⟩, 1⟩
    ⟨⟨⟨0, 0, 0⟩, .fGeomBoundary, ⟨[⟨false⟩, ⟨true⟩, ⟨false⟩], 0⟩⟩,
     ⟨⟨5, 2, 3⟩, .fGeomBoundary, ⟨[⟨false⟩, ⟨true⟩, ⟨false⟩], 0⟩⟩⟩
    rfl (by norm_num)
  exact ⟨by norm_num, h.2⟩

/-- C9 counterexample: the same call leaves the pre-step touchable at offset 1
while it was received at offset 0, so the input touchable hierarchy is not
left unchanged by the evaluator. -/
theorem C9_counterexample :
    (PostStepDoIt ⟨true, true, true, false, 1⟩ ⟨⟨-1, 0, 0⟩, true⟩ none
        ⟨⟨1, 0, 0⟩, ⟨0, 0, 1⟩, 1⟩
        ⟨⟨⟨0, 0, 0⟩, .fGeomBoundary, ⟨[⟨false⟩, ⟨true⟩, ⟨false⟩], 0⟩⟩,
         ⟨⟨5, 2, 3⟩, .fGeomBoundary,
          ⟨[⟨false⟩, ⟨true⟩, ⟨false⟩], 0⟩⟩⟩).finalTouchable ≠
      (⟨[⟨false⟩, ⟨true⟩, ⟨false⟩], 0⟩ : Touchable) := by
  rw [pbc_finalTouchable_main (⟨true, true, true, false, 1⟩ : PBConfig) ⟨⟨-1, 0, 0⟩, true⟩ none
    ⟨⟨1, 0, 0⟩, ⟨0, 0, 1⟩, 1⟩
    ⟨⟨⟨0, 0, 0⟩, .fGeomBoundary, ⟨[⟨false⟩, ⟨true⟩, ⟨false⟩], 0⟩⟩,
     ⟨⟨5, 2, 3⟩, .fGeomBoundary, ⟨[⟨false⟩, ⟨true⟩, ⟨false⟩], 0⟩⟩⟩ rfl (by norm_num)]
  decide

end PBC
